import Mathlib

/-!
Verification of the decision core of the face-recognition attendance
system: `LivenessDetector` and `AttendanceSystem` from
`src/recognize_v2.py` (the earlier variant `src/recognize.py` has the
same decision logic with hard-coded constants from its header), with
defaults from `src/config.py`.

Camera capture, face detection, grayscale conversion, embedding
extraction and `cv2.resize` are external collaborators of the core; the
model receives their outputs as inputs, and `cv2.resize` (which is only
reached when two stored face patches have different shapes) enters the
model as an opaque function parameter.
-/

/-- Grayscale face patch: a grid of pixel intensities, as produced by
`frame[top:bottom, left:right]` followed by the external
`cv2.cvtColor(..., COLOR_BGR2GRAY)` (which preserves shape). -/
abbrev Patch := List (List Nat)

/-- Total number of pixels of a patch, `numpy`'s `.size`. -/
def patchSize (p : Patch) : Nat := (p.map List.length).sum

/-- Shape `(rows, cols)` of a patch, `numpy`'s `.shape` for the
rectangular arrays the source manipulates. -/
def shape (p : Patch) : Nat × Nat := (p.length, (p.headD []).length)

/-- Absolute difference of two pixel intensities, one cell of
`cv2.absdiff`. -/
def pixDiff (a b : Nat) : Nat := max a b - min a b

/-- Count `np.sum(cv2.absdiff(a, b) > thr)`: the number of pixel positions of
two same-shape patches whose absolute difference exceeds `thr`
(`recognize_v2.py` lines 99-100 and 127-128). -/
def countDiff (thr : Nat) (a b : Patch) : Nat :=
  ((a.zip b).map
    (fun rp => (rp.1.zip rp.2).countP (fun q => decide (thr < pixDiff q.1 q.2)))).sum

/-- Configuration `LivenessConfig` from `src/config.py`. -/
structure LivenessConfig where
  motion_history_size : Nat := 10
  liveness_threshold : Nat := 15
  min_face_presence : Nat := 5
  motion_pixel_threshold : Nat := 10
deriving Repr, DecidableEq

/-- Mutable state of `LivenessDetector` (`recognize_v2.py` lines 49-55). -/
structure LivenessState where
  motion_history : List Patch
  face_presence_count : Nat
  is_alive : Bool
deriving Repr, DecidableEq

/-- State built by `LivenessDetector.__init__`. -/
def liveness_init : LivenessState := ⟨[], 0, false⟩

/-- Method `LivenessDetector.reset` (`recognize_v2.py` lines 132-137). -/
def liveness_reset (_ : LivenessState) : LivenessState := ⟨[], 0, false⟩

/-- Method `LivenessDetector._calculate_total_motion` (`recognize_v2.py` lines
116-130): sum over adjacent pairs of the window of the count of pixels
whose absolute difference exceeds `thr`; when two adjacent patches have
different shapes the current one is first resized (externally) to the
previous one's shape. -/
def total_motion (resize : Patch → Nat × Nat → Patch) (thr : Nat) :
    List Patch → Nat
  | [] => 0
  | [_] => 0
  | a :: b :: rest =>
    countDiff thr a (if shape b ≠ shape a then resize b (shape a) else b)
      + total_motion resize thr (b :: rest)

/-- Motion formula as the specification states it, with no resizing:
sum, over every adjacent pair of patches in the window, of the count of
pixels whose absolute difference exceeds the threshold. -/
def pair_motion (thr : Nat) : List Patch → Nat
  | [] => 0
  | [_] => 0
  | a :: b :: rest => countDiff thr a b + pair_motion thr (b :: rest)

/-- Window update of `recognize_v2.py` lines 104-105: after the append,
`pop(0)` drops the oldest patch when the window has outgrown `size`. -/
def evict (size : Nat) (l : List Patch) : List Patch :=
  if size < l.length then l.tail else l

/-- Method `LivenessDetector.detect_motion` (`recognize_v2.py` lines 57-114).
The input `patch` is the extracted face region (`none` when
`face_location is None`).  Notes kept faithful to the source:

* `face_presence_count` is incremented before the degenerate-region
  check (line 73 precedes lines 77-80);
* the frame difference against the last stored patch computed at lines
  92-100 is used only for a debug log line and never affects state, so
  it is omitted here;
* the verdict branch requires a window of at least 3 patches and sets
  `is_alive` from `average_motion > liveness_threshold` (lines 107-114),
  otherwise the stale `is_alive` field is returned;
* the source's float average is modelled exactly by rational division. -/
def detect_motion (resize : Patch → Nat × Nat → Patch) (cfg : LivenessConfig)
    (s : LivenessState) (patch : Option Patch) : Bool × LivenessState :=
  match patch with
  | none => (false, ⟨[], 0, s.is_alive⟩)
  | some region =>
    let fpc := s.face_presence_count + 1
    if patchSize region = 0 then (false, ⟨s.motion_history, fpc, s.is_alive⟩)
    else if s.motion_history = [] then (false, ⟨[region], fpc, s.is_alive⟩)
    else
      let hist := evict cfg.motion_history_size (s.motion_history ++ [region])
      if 3 ≤ hist.length then
        let total := total_motion resize cfg.motion_pixel_threshold hist
        let avg : ℚ := (total : ℚ) / ((hist.length : ℚ) - 1)
        let alive : Bool := decide ((cfg.liveness_threshold : ℚ) < avg)
        (alive, ⟨hist, fpc, alive⟩)
      else (s.is_alive, ⟨hist, fpc, s.is_alive⟩)

/-- Fold a sequence of per-frame inputs through `detect_motion`,
keeping only the detector state. -/
def run_updates (resize : Patch → Nat × Nat → Patch) (cfg : LivenessConfig)
    (s : LivenessState) (inputs : List (Option Patch)) : LivenessState :=
  inputs.foldl (fun t p => (detect_motion resize cfg t p).2) s

/-- Resize stand-in used for concrete witnesses; the theorems below
whose windows have uniform shapes hold for every resize function. -/
def idResize (p : Patch) (_ : Nat × Nat) : Patch := p

/-- A 1 × 16 all-black patch. -/
def patchA : Patch := [[0, 0, 0, 0, 0, 0, 0, 0, 0, 0, 0, 0, 0, 0, 0, 0]]

/-- A 1 × 16 all-white patch. -/
def patchB : Patch :=
  [[255, 255, 255, 255, 255, 255, 255, 255, 255, 255, 255, 255, 255, 255, 255, 255]]

/-- Face embedding: a fixed-length numeric vector produced by the
external `face_recognition` encoder.  The source's float components are
modelled as rationals. -/
abbrev Emb := List ℚ

/-- Configuration `RecognitionConfig` from `src/config.py` (the source's
float literals 0.6 and 0.55 are the rationals 3/5 and 11/20). -/
structure RecognitionConfig where
  recognition_threshold : ℚ := 3 / 5
  confidence_threshold : ℚ := 11 / 20
  duplicate_detection_window : Nat := 5
deriving Repr, DecidableEq

/-- Data class `RecognitionResult` from `recognize_v2.py` lines 28-35.
The `timestamp` field (`datetime.now()` at construction) is external
clock plumbing and is not modelled. -/
structure RecognitionResult where
  name : Option String
  distance : ℚ
  is_alive : Bool
  confidence : ℚ
deriving Repr, DecidableEq

/-- Scan of a distance list tracking `np.argmin`/`np.min`: `i` is the
index of the next element, `bi`/`bv` the index and value of the best
(first minimal) element seen so far.  The strict `<` keeps the first
occurrence of the minimum, exactly `np.argmin`'s tie rule. -/
def idxminAux : Nat → Nat → ℚ → List ℚ → Nat × ℚ
  | _, bi, bv, [] => (bi, bv)
  | i, bi, bv, d :: rest =>
    if d < bv then idxminAux (i + 1) i d rest else idxminAux (i + 1) bi bv rest

/-- Pair `(np.argmin(distances), np.min(distances))` for a nonempty list
(the empty case is unreachable: the source guards on a nonempty
enrollment before computing distances). -/
def idxmin : List ℚ → Nat × ℚ
  | [] => (0, 1)
  | d :: rest => idxminAux 1 0 d rest

/-- Method `AttendanceSystem.recognize_face` (`recognize_v2.py` lines 222-281),
restricted to its decision core.  The external collaborators appear as
inputs: `faces` is the number of boxes `face_recognition.face_locations`
returned, `face_encoding` the (possibly missing) embedding of the single
face, `is_alive` the verdict `detect_motion` produced for it, and
`face_distance` the external distance metric applied to each enrolled
encoding.  `known_encodings`/`known_names` are the two parallel lists
loaded in lockstep by `load_known_faces`, so the out-of-range default of
`getD` is never reached when their lengths agree. -/
def recognize_face (cfg : RecognitionConfig) (faces : Nat) (is_alive : Bool)
    (face_encoding : Option Emb) (known_encodings : List Emb)
    (known_names : List String) (face_distance : Emb → Emb → ℚ) :
    RecognitionResult :=
  if faces = 0 then ⟨none, 1, false, 0⟩
  else if 1 < faces then ⟨some "MULTIPLE_FACES", 1, false, 0⟩
  else
    match face_encoding with
    | none => ⟨none, 1, is_alive, 0⟩
    | some e =>
      if known_encodings = [] then ⟨some "UNKNOWN", 1, is_alive, 0⟩
      else
        let distances := known_encodings.map (fun k => face_distance k e)
        let m := idxmin distances
        let confidence : ℚ := 1 - m.2
        let name :=
          if m.2 < cfg.recognition_threshold ∧ cfg.confidence_threshold < confidence
          then known_names.getD m.1 ""
          else "UNKNOWN"
        ⟨some name, m.2, is_alive, confidence⟩

/-- Attendance ledger row, the six string-typed CSV columns written by
`create_attendance_file` (`recognize_v2.py` lines 184-191). -/
structure AttendanceRecord where
  name : String
  date : String
  punch_in : String
  punch_out : String
  confidence : String
  liveness_check : String
deriving Repr, DecidableEq, Inhabited

/-- Lookup in the `last_marked` dict, modelled as an association list. -/
def lookupKV (k : String) (m : List (String × ℚ)) : Option ℚ :=
  (m.find? (fun kv => kv.1 == k)).map Prod.snd

/-- Dict assignment `m[k] = v`: replace an existing binding, else append. -/
def insertKV (k : String) (v : ℚ) (m : List (String × ℚ)) :
    List (String × ℚ) :=
  if m.any (fun kv => kv.1 == k) then
    m.map (fun kv => if kv.1 == k then (k, v) else kv)
  else m ++ [(k, v)]

/-- Dict deletion `del m[k]`. -/
def eraseKV (k : String) (m : List (String × ℚ)) : List (String × ℚ) :=
  m.filter (fun kv => !(kv.1 == k))

/-- Emptiness test for the `Punch_Out` cell (`recognize_v2.py` lines
333-334): pandas reads an empty cell of a `dtype=str` frame as NaN, and
`str(...).strip()` of it is `"nan"`, so both spellings are checked. -/
def emptyPunchOut (v : String) : Bool :=
  v.trim == "" || v.trim == "nan"

/-- Row predicate of the lookup
`df[(df["Name"] == name) & (df["Date"] == date)]`. -/
def recordPred (name date : String) (r : AttendanceRecord) : Bool :=
  r.name == name && r.date == date

/-- State touched by `AttendanceSystem.mark_attendance`: the ledger file
contents (the CSV parsed into rows) and the in-memory `last_marked`
debounce dict. -/
structure MarkState where
  ledger : List AttendanceRecord
  last_marked : List (String × ℚ)
deriving Repr, DecidableEq

/-- Fate of the two I/O operations of one `mark_attendance` call:
`readFail` models `pd.read_csv` raising (before any mutation),
`writeFail` models `df.to_csv` raising (after the in-memory mutations,
with the file treated as an all-or-nothing write), both caught by the
`except` clause at `recognize_v2.py` lines 351-353. -/
inductive IOOutcome
  | ok
  | readFail
  | writeFail
deriving Repr, DecidableEq

/-- Method `AttendanceSystem.mark_attendance` (`recognize_v2.py` lines 283-353).
`now` is the clock reading in seconds (the source calls `datetime.now()`
again for the debounce arithmetic a few microseconds after the first
reading; one instant stands for all of them), and `date`/`time_str` are
its two `strftime` renderings.  Branches in source order:

* not alive → `REJECTED_SPOOF` before anything else (lines 294-296);
* look up the first row with this name and date (line 306);
* no row: debounce check against `last_marked` (lines 310-315), then a
  new row `(name, date, time_str, "", "HIGH", "VERIFIED")` is appended
  and `last_marked[key]` is set **before** the write (lines 317-329);
* row with empty `Punch_Out`: set it and `Liveness_Check` on the first
  matching row, delete `last_marked[key]` **before** the write
  (lines 331-343);
* otherwise `ALREADY_MARKED` with no write (lines 344-346). -/
def mark_attendance (cfg : RecognitionConfig) (s : MarkState) (name : String)
    (is_alive : Bool) (now : ℚ) (date time_str : String) (io : IOOutcome) :
    String × MarkState :=
  if is_alive = false then ("REJECTED_SPOOF", s)
  else if io = IOOutcome.readFail then ("ERROR", s)
  else
    match s.ledger.findIdx? (recordPred name date) with
    | none =>
      let key := name ++ "_" ++ date
      let dup : Bool :=
        match lookupKV key s.last_marked with
        | some last => decide (now - last < (cfg.duplicate_detection_window : ℚ))
        | none => false
      if dup then ("DUPLICATE", s)
      else
        let new_record : AttendanceRecord :=
          ⟨name, date, time_str, "", "HIGH", "VERIFIED"⟩
        let last1 := insertKV key now s.last_marked
        if io = IOOutcome.writeFail then ("ERROR", ⟨s.ledger, last1⟩)
        else ("PUNCH_IN", ⟨s.ledger ++ [new_record], last1⟩)
    | some idx =>
      let r := s.ledger.getD idx default
      if emptyPunchOut r.punch_out then
        let ledger1 := s.ledger.set idx
          { r with punch_out := time_str, liveness_check := "VERIFIED" }
        let last1 := eraseKV (name ++ "_" ++ date) s.last_marked
        if io = IOOutcome.writeFail then ("ERROR", ⟨s.ledger, last1⟩)
        else ("PUNCH_OUT", ⟨ledger1, last1⟩)
      else ("ALREADY_MARKED", s)

/-- Concrete open ledger row (punched in, not yet out) used by the
concrete instances below. -/
def recOpen : AttendanceRecord :=
  ⟨"alice", "2026-10-12", "09:00:00", "", "HIGH", "VERIFIED"⟩

/-- Concrete closed ledger row (punched in and out) used by the
concrete instances below. -/
def recClosed : AttendanceRecord :=
  ⟨"alice", "2026-10-12", "09:00:00", "17:00:00", "HIGH", "VERIFIED"⟩

/-! ### Helper lemmas -/

theorem zip_self {α : Type} (l : List α) : l.zip l = l.map (fun x => (x, x)) := by
  induction l with
  | nil => rfl
  | cons a t ih => simp [List.zip_cons_cons, ih]

theorem countDiff_self (thr : Nat) (a : Patch) : countDiff thr a a = 0 := by
  unfold countDiff
  apply List.sum_eq_zero
  intro x hx
  simp only [List.mem_map] at hx
  obtain ⟨rp, hrp, rfl⟩ := hx
  rw [zip_self] at hrp
  simp only [List.mem_map] at hrp
  obtain ⟨r, hr, rfl⟩ := hrp
  rw [zip_self]
  rw [List.countP_eq_zero]
  intro q hq
  simp only [List.mem_map] at hq
  obtain ⟨x, hx, rfl⟩ := hq
  simp [pixDiff]

theorem pair_motion_eq_zero (thr : Nat) (p : Patch) :
    ∀ l : List Patch, (∀ q ∈ l, q = p) → pair_motion thr l = 0
  | [], _ => rfl
  | [_], _ => rfl
  | a :: b :: rest, h => by
    have ha : a = p := h a (by simp)
    have hb : b = p := h b (by simp)
    rw [pair_motion, ha, hb, countDiff_self,
      pair_motion_eq_zero thr p (p :: rest)
        (fun q hq => by
          rcases List.mem_cons.1 hq with h1 | h1
          · exact h1
          · exact h q (by simp [h1]))]

theorem total_motion_eq_pair_motion (resize : Patch → Nat × Nat → Patch)
    (thr : Nat) (sh : Nat × Nat) :
    ∀ l : List Patch, (∀ q ∈ l, shape q = sh) →
      total_motion resize thr l = pair_motion thr l
  | [], _ => rfl
  | [_], _ => rfl
  | a :: b :: rest, h => by
    have ha : shape a = sh := h a (by simp)
    have hb : shape b = sh := h b (by simp)
    rw [total_motion, pair_motion,
      if_neg (fun hc : shape b ≠ shape a => hc (hb.trans ha.symm)),
      total_motion_eq_pair_motion resize thr sh (b :: rest)
        (fun q hq => h q (List.mem_cons_of_mem _ hq))]

theorem evict_length_le (size : Nat) (l : List Patch) (h : l.length ≤ size + 1) :
    (evict size l).length ≤ size := by
  unfold evict
  split
  · rw [List.length_tail]; omega
  · omega

theorem evict_subset (size : Nat) (l : List Patch) :
    ∀ q ∈ evict size l, q ∈ l := by
  intro q hq
  unfold evict at hq
  split at hq
  · exact List.mem_of_mem_tail hq
  · exact hq

theorem detect_motion_window_le (resize : Patch → Nat × Nat → Patch)
    (cfg : LivenessConfig) (h1 : 1 ≤ cfg.motion_history_size)
    (s : LivenessState) (patch : Option Patch)
    (hs : s.motion_history.length ≤ cfg.motion_history_size) :
    (detect_motion resize cfg s patch).2.motion_history.length
      ≤ cfg.motion_history_size := by
  cases patch with
  | none => simp [detect_motion]
  | some p =>
    by_cases hp : patchSize p = 0
    · simpa [detect_motion, hp] using hs
    · by_cases he : s.motion_history = []
      · simpa [detect_motion, hp, he] using h1
      · have hev : (evict cfg.motion_history_size
            (s.motion_history ++ [p])).length ≤ cfg.motion_history_size :=
          evict_length_le _ _ (by
            simp only [List.length_append, List.length_cons, List.length_nil]
            omega)
        simp only [detect_motion]
        rw [if_neg hp, if_neg he]
        split
        · exact hev
        · exact hev

theorem detect_motion_window_full (resize : Patch → Nat × Nat → Patch)
    (cfg : LivenessConfig) (s : LivenessState) (p : Patch)
    (hp : patchSize p ≠ 0) (he : s.motion_history ≠ [])
    (hf : s.motion_history.length = cfg.motion_history_size) :
    (detect_motion resize cfg s (some p)).2.motion_history
      = s.motion_history.tail ++ [p] := by
  have htail : (s.motion_history ++ [p]).tail = s.motion_history.tail ++ [p] := by
    cases hh : s.motion_history with
    | nil => exact absurd hh he
    | cons a t => rfl
  have hev : evict cfg.motion_history_size (s.motion_history ++ [p])
      = s.motion_history.tail ++ [p] := by
    unfold evict
    rw [if_pos (by
      simp only [List.length_append, List.length_cons, List.length_nil, hf]
      omega)]
    exact htail
  simp only [detect_motion]
  rw [if_neg hp, if_neg he, hev]
  split <;> rfl

theorem detect_motion_window_append (resize : Patch → Nat × Nat → Patch)
    (cfg : LivenessConfig) (s : LivenessState) (p : Patch)
    (hp : patchSize p ≠ 0) (he : s.motion_history ≠ [])
    (hlt : s.motion_history.length < cfg.motion_history_size) :
    (detect_motion resize cfg s (some p)).2.motion_history
      = s.motion_history ++ [p] := by
  have hev : evict cfg.motion_history_size (s.motion_history ++ [p])
      = s.motion_history ++ [p] := by
    unfold evict
    rw [if_neg (by
      simp only [List.length_append, List.length_cons, List.length_nil]
      omega)]
  simp only [detect_motion]
  rw [if_neg hp, if_neg he, hev]
  split <;> rfl

/-! ### C9: the motion window is a bounded FIFO -/

/-- C9: one update keeps the window length at most `history_size` (for
any positive size, 10 by default); on overflow (window full, normal
update path) the new patch is appended and the oldest patch is evicted,
below capacity it is just appended; and every update sequence from the
initial state keeps the window length within the bound. -/
theorem window_length_invariant (resize : Patch → Nat × Nat → Patch)
    (cfg : LivenessConfig) (h1 : 1 ≤ cfg.motion_history_size) :
    (∀ (s : LivenessState) (patch : Option Patch),
        s.motion_history.length ≤ cfg.motion_history_size →
        (detect_motion resize cfg s patch).2.motion_history.length
          ≤ cfg.motion_history_size)
  ∧ (∀ (s : LivenessState) (p : Patch), patchSize p ≠ 0 →
      s.motion_history ≠ [] →
      s.motion_history.length = cfg.motion_history_size →
      (detect_motion resize cfg s (some p)).2.motion_history
        = s.motion_history.tail ++ [p])
  ∧ (∀ (s : LivenessState) (p : Patch), patchSize p ≠ 0 →
      s.motion_history ≠ [] →
      s.motion_history.length < cfg.motion_history_size →
      (detect_motion resize cfg s (some p)).2.motion_history
        = s.motion_history ++ [p])
  ∧ ∀ inputs : List (Option Patch),
      (run_updates resize cfg liveness_init inputs).motion_history.length
        ≤ cfg.motion_history_size := by
  refine ⟨fun s patch => detect_motion_window_le resize cfg h1 s patch,
    fun s p => detect_motion_window_full resize cfg s p,
    fun s p => detect_motion_window_append resize cfg s p, ?_⟩
  intro inputs
  have hgen : ∀ (l : List (Option Patch)) (s : LivenessState),
      s.motion_history.length ≤ cfg.motion_history_size →
      (run_updates resize cfg s l).motion_history.length
        ≤ cfg.motion_history_size := by
    intro l
    induction l with
    | nil => exact fun s hs => hs
    | cons a t ih =>
      intro s hs
      exact ih _ (detect_motion_window_le resize cfg h1 s a hs)
  exact hgen inputs liveness_init (Nat.zero_le _)

/-- Witness for `window_length_invariant`: the bound after one update,
the FIFO eviction at capacity 1, the plain append below capacity, and
the bound along a concrete run. -/
theorem window_length_invariant_witness :
    (detect_motion idResize {} liveness_init (some patchA)).2.motion_history.length ≤ 10
  ∧ (detect_motion idResize ⟨1, 15, 5, 10⟩ ⟨[patchA], 1, false⟩
      (some patchB)).2.motion_history = [patchA].tail ++ [patchB]
  ∧ (detect_motion idResize {} ⟨[patchA], 1, false⟩
      (some patchB)).2.motion_history = [patchA] ++ [patchB]
  ∧ (run_updates idResize {} liveness_init
      [some patchA, some patchB, some patchA]).motion_history.length ≤ 10 :=
  ⟨(window_length_invariant idResize {} (by decide)).1 liveness_init
      (some patchA) (by decide),
   (window_length_invariant idResize ⟨1, 15, 5, 10⟩ (by decide)).2.1
      ⟨[patchA], 1, false⟩ patchB (by decide) (by decide) rfl,
   (window_length_invariant idResize {} (by decide)).2.2.1
      ⟨[patchA], 1, false⟩ patchB (by decide) (by decide) (by decide),
   (window_length_invariant idResize {} (by decide)).2.2.2
      [some patchA, some patchB, some patchA]⟩

/-! ### C5: the liveness verdict formula -/

/-- C5: when a normal update leaves the window with at least 3
same-shape patches, the returned verdict, and the stored `is_alive`,
equal the specified formula — the sum over every adjacent pair of the
window of the count of pixels whose absolute difference exceeds
`motion_pixel_threshold`, divided by (window length − 1), compared
strictly against `liveness_threshold`; and when all patches of the
window are identical the average motion is 0 and the verdict is false. -/
theorem detect_motion_verdict_formula (resize : Patch → Nat × Nat → Patch)
    (cfg : LivenessConfig) (s : LivenessState) (p : Patch)
    (hp : patchSize p ≠ 0) (he : s.motion_history ≠ [])
    (hsh : ∀ q ∈ s.motion_history, shape q = shape p)
    (h3 : 3 ≤ (evict cfg.motion_history_size (s.motion_history ++ [p])).length) :
    detect_motion resize cfg s (some p)
      = (decide ((cfg.liveness_threshold : ℚ) <
            (pair_motion cfg.motion_pixel_threshold
                (evict cfg.motion_history_size (s.motion_history ++ [p])) : ℚ)
              / (((evict cfg.motion_history_size
                    (s.motion_history ++ [p])).length : ℚ) - 1)),
         ⟨evict cfg.motion_history_size (s.motion_history ++ [p]),
          s.face_presence_count + 1,
          decide ((cfg.liveness_threshold : ℚ) <
            (pair_motion cfg.motion_pixel_threshold
                (evict cfg.motion_history_size (s.motion_history ++ [p])) : ℚ)
              / (((evict cfg.motion_history_size
                    (s.motion_history ++ [p])).length : ℚ) - 1))⟩)
    ∧ ((∀ q ∈ s.motion_history, q = p) →
        pair_motion cfg.motion_pixel_threshold
          (evict cfg.motion_history_size (s.motion_history ++ [p])) = 0
        ∧ (detect_motion resize cfg s (some p)).1 = false) := by
  have hmem : ∀ q ∈ evict cfg.motion_history_size (s.motion_history ++ [p]),
      shape q = shape p := by
    intro q hq
    rcases List.mem_append.1 (evict_subset _ _ q hq) with h | h
    · exact hsh q h
    · simp only [List.mem_singleton] at h
      rw [h]
  have htm : total_motion resize cfg.motion_pixel_threshold
        (evict cfg.motion_history_size (s.motion_history ++ [p]))
      = pair_motion cfg.motion_pixel_threshold
        (evict cfg.motion_history_size (s.motion_history ++ [p])) :=
    total_motion_eq_pair_motion resize _ (shape p) _ hmem
  have hmain : detect_motion resize cfg s (some p)
      = (decide ((cfg.liveness_threshold : ℚ) <
            (pair_motion cfg.motion_pixel_threshold
                (evict cfg.motion_history_size (s.motion_history ++ [p])) : ℚ)
              / (((evict cfg.motion_history_size
                    (s.motion_history ++ [p])).length : ℚ) - 1)),
         ⟨evict cfg.motion_history_size (s.motion_history ++ [p]),
          s.face_presence_count + 1,
          decide ((cfg.liveness_threshold : ℚ) <
            (pair_motion cfg.motion_pixel_threshold
                (evict cfg.motion_history_size (s.motion_history ++ [p])) : ℚ)
              / (((evict cfg.motion_history_size
                    (s.motion_history ++ [p])).length : ℚ) - 1))⟩) := by
    simp only [detect_motion]
    rw [if_neg hp, if_neg he, if_pos h3, htm]
  refine ⟨hmain, fun hconst => ?_⟩
  have hz : pair_motion cfg.motion_pixel_threshold
      (evict cfg.motion_history_size (s.motion_history ++ [p])) = 0 :=
    pair_motion_eq_zero _ p _ (fun q hq => by
      rcases List.mem_append.1 (evict_subset _ _ q hq) with h | h
      · exact hconst q h
      · simpa using h)
  refine ⟨hz, ?_⟩
  rw [hmain, hz]
  simp only [Nat.cast_zero, zero_div]
  exact decide_eq_false (not_lt.2 (by positivity))

/-- Witness for `detect_motion_verdict_formula`: a window of three
patches of identical shape; the verdict equals the formula, and for the
identical-patch run the average motion is 0 and the verdict false. -/
theorem detect_motion_verdict_formula_witness :
    detect_motion idResize {} ⟨[patchA, patchB], 2, false⟩ (some patchA)
      = (decide (((({} : LivenessConfig).liveness_threshold) : ℚ) <
            (pair_motion 10 (evict 10 ([patchA, patchB] ++ [patchA])) : ℚ)
              / (((evict 10 ([patchA, patchB] ++ [patchA])).length : ℚ) - 1)),
         ⟨evict 10 ([patchA, patchB] ++ [patchA]), 3,
          decide (((({} : LivenessConfig).liveness_threshold) : ℚ) <
            (pair_motion 10 (evict 10 ([patchA, patchB] ++ [patchA])) : ℚ)
              / (((evict 10 ([patchA, patchB] ++ [patchA])).length : ℚ) - 1))⟩)
    ∧ (pair_motion 10 (evict 10 ([patchA, patchA] ++ [patchA])) = 0
        ∧ (detect_motion idResize {} ⟨[patchA, patchA], 2, false⟩
            (some patchA)).1 = false) :=
  ⟨(detect_motion_verdict_formula idResize {} ⟨[patchA, patchB], 2, false⟩ patchA
      (by decide) (by decide) (by decide) (by decide)).1,
   (detect_motion_verdict_formula idResize {} ⟨[patchA, patchA], 2, false⟩ patchA
      (by decide) (by decide) (by decide) (by decide)).2 (by decide)⟩

/-! ### C6: the effect of an update with no face location -/

/-- C6 (amended): `update(None)` clears the motion window and the
face-presence counter and returns not-alive, but it does not reset the
stored `is_alive` flag; and every sequence consisting only of `None`
updates keeps the detector at its initial state (window length 0,
`is_alive` false). -/
theorem detect_motion_none_clears_window (resize : Patch → Nat × Nat → Patch)
    (cfg : LivenessConfig) :
    (∀ s : LivenessState,
        detect_motion resize cfg s none = (false, ⟨[], 0, s.is_alive⟩))
  ∧ (∀ inputs : List (Option Patch), (∀ x ∈ inputs, x = none) →
      run_updates resize cfg liveness_init inputs = liveness_init) := by
  constructor
  · intro s; rfl
  · intro inputs h
    induction inputs with
    | nil => rfl
    | cons a t ih =>
      have ha : a = none := h a (List.mem_cons_self a t)
      subst ha
      show run_updates resize cfg
        (detect_motion resize cfg liveness_init none).2 t = liveness_init
      exact ih (fun x hx => h x (List.mem_cons_of_mem _ hx))

/-- Witness for `detect_motion_none_clears_window` at a state with a
nonempty window and a true verdict, and at a concrete all-`none` run. -/
theorem detect_motion_none_clears_window_witness :
    detect_motion idResize {} ⟨[patchA, patchB], 7, true⟩ none = (false, ⟨[], 0, true⟩)
    ∧ run_updates idResize {} liveness_init [none, none, none] = liveness_init :=
  ⟨(detect_motion_none_clears_window idResize {}).1 ⟨[patchA, patchB], 7, true⟩,
   (detect_motion_none_clears_window idResize {}).2 [none, none, none] (by simp)⟩

/-- Counterexample to C6 as stated: run the detector to a true verdict,
reset it with a `None` update, then feed two frames.  The second frame
after the reset already returns an alive verdict (the stale `is_alive`
field) although the window only holds 2 patches. -/
theorem detect_motion_stale_verdict_after_none :
    (detect_motion idResize {}
      (run_updates idResize {} liveness_init
        [some patchA, some patchB, some patchA, none, some patchA])
      (some patchA)).1 = true
  ∧ (detect_motion idResize {}
      (run_updates idResize {} liveness_init
        [some patchA, some patchB, some patchA, none, some patchA])
      (some patchA)).2.motion_history.length = 2 := by
  with_unfolding_all decide

/-! ### C7: the effect of an update with a degenerate face patch -/

/-- C7 (amended): an update with an empty or zero-area face patch is
total (never crashes), returns `false`, and leaves the motion window and
the stored verdict unchanged — but `face_presence_count` has already
been incremented when the degenerate region is detected (`recognize_v2.py`
line 73 precedes the guard at lines 77-80). -/
theorem detect_motion_degenerate_patch (resize : Patch → Nat × Nat → Patch)
    (cfg : LivenessConfig) (s : LivenessState) (p : Patch)
    (h : patchSize p = 0) :
    detect_motion resize cfg s (some p)
      = (false, ⟨s.motion_history, s.face_presence_count + 1, s.is_alive⟩) := by
  simp [detect_motion, h]

/-- Witness for `detect_motion_degenerate_patch` on the empty patch. -/
theorem detect_motion_degenerate_patch_witness :
    detect_motion idResize {} ⟨[patchA], 4, true⟩ (some [])
      = (false, ⟨[patchA], 5, true⟩) :=
  detect_motion_degenerate_patch idResize {} ⟨[patchA], 4, true⟩ [] rfl

/-- Counterexample to C7 as stated: after an update with the empty patch
the detector state differs from the state before the update (the
face-presence counter moved from 0 to 1), so the update is not
observationally equivalent to no update. -/
theorem detect_motion_degenerate_patch_changes_state :
    (detect_motion idResize {} liveness_init (some ([] : Patch))).2
      ≠ liveness_init := by decide

/-! ### C2: the liveness gate precedes everything -/

/-- C2: with `liveness_alive = false`, `mark_attendance` returns
`REJECTED_SPOOF` and leaves the ledger and the debounce map untouched,
for every ledger state, name, clock reading and even for failing I/O —
the gate is evaluated before any other condition. -/
theorem mark_attendance_spoof_rejected (cfg : RecognitionConfig)
    (s : MarkState) (name : String) (now : ℚ) (date time_str : String)
    (io : IOOutcome) :
    mark_attendance cfg s name false now date time_str io
      = ("REJECTED_SPOOF", s) := rfl

/-! ### Branch lemmas for `mark_attendance` -/

theorem mark_attendance_punch_in_eq (cfg : RecognitionConfig) (s : MarkState)
    (name : String) (now : ℚ) (date time_str : String)
    (hfind : s.ledger.findIdx? (recordPred name date) = none)
    (hdeb : ∀ last, lookupKV (name ++ "_" ++ date) s.last_marked = some last →
      ¬ now - last < (cfg.duplicate_detection_window : ℚ)) :
    mark_attendance cfg s name true now date time_str IOOutcome.ok
      = ("PUNCH_IN",
         ⟨s.ledger ++ [⟨name, date, time_str, "", "HIGH", "VERIFIED"⟩],
          insertKV (name ++ "_" ++ date) now s.last_marked⟩) := by
  rcases hl : lookupKV (name ++ "_" ++ date) s.last_marked with _ | last
  · simp [mark_attendance, hfind, hl]
  · have hd := hdeb last hl
    simp [mark_attendance, hfind, hl, hd]

theorem mark_attendance_duplicate_eq (cfg : RecognitionConfig) (s : MarkState)
    (name : String) (now : ℚ) (date time_str : String) (last : ℚ)
    (hfind : s.ledger.findIdx? (recordPred name date) = none)
    (hl : lookupKV (name ++ "_" ++ date) s.last_marked = some last)
    (hlt : now - last < (cfg.duplicate_detection_window : ℚ)) :
    mark_attendance cfg s name true now date time_str IOOutcome.ok
      = ("DUPLICATE", s) := by
  simp [mark_attendance, hfind, hl, hlt]

theorem mark_attendance_punch_out_eq (cfg : RecognitionConfig) (s : MarkState)
    (name : String) (now : ℚ) (date time_str : String) (idx : Nat)
    (hfind : s.ledger.findIdx? (recordPred name date) = some idx)
    (hempty : emptyPunchOut (s.ledger.getD idx default).punch_out = true) :
    mark_attendance cfg s name true now date time_str IOOutcome.ok
      = ("PUNCH_OUT",
         ⟨s.ledger.set idx { s.ledger.getD idx default with
            punch_out := time_str, liveness_check := "VERIFIED" },
          eraseKV (name ++ "_" ++ date) s.last_marked⟩) := by
  rw [List.getD_eq_getElem?_getD] at hempty
  simp [mark_attendance, hfind, hempty, List.getD_eq_getElem?_getD]

theorem mark_attendance_already_marked_eq (cfg : RecognitionConfig)
    (s : MarkState) (name : String) (now : ℚ) (date time_str : String)
    (idx : Nat)
    (hfind : s.ledger.findIdx? (recordPred name date) = some idx)
    (hfull : emptyPunchOut (s.ledger.getD idx default).punch_out = false) :
    mark_attendance cfg s name true now date time_str IOOutcome.ok
      = ("ALREADY_MARKED", s) := by
  rw [List.getD_eq_getElem?_getD] at hfull
  simp [mark_attendance, hfind, hfull, List.getD_eq_getElem?_getD]

theorem mark_attendance_read_fail_eq (cfg : RecognitionConfig) (s : MarkState)
    (name : String) (now : ℚ) (date time_str : String) :
    mark_attendance cfg s name true now date time_str IOOutcome.readFail
      = ("ERROR", s) := rfl

theorem mark_attendance_write_fail_in_eq (cfg : RecognitionConfig)
    (s : MarkState) (name : String) (now : ℚ) (date time_str : String)
    (hfind : s.ledger.findIdx? (recordPred name date) = none)
    (hdeb : ∀ last, lookupKV (name ++ "_" ++ date) s.last_marked = some last →
      ¬ now - last < (cfg.duplicate_detection_window : ℚ)) :
    mark_attendance cfg s name true now date time_str IOOutcome.writeFail
      = ("ERROR",
         ⟨s.ledger, insertKV (name ++ "_" ++ date) now s.last_marked⟩) := by
  rcases hl : lookupKV (name ++ "_" ++ date) s.last_marked with _ | last
  · simp [mark_attendance, hfind, hl]
  · have hd := hdeb last hl
    simp [mark_attendance, hfind, hl, hd]

theorem mark_attendance_write_fail_out_eq (cfg : RecognitionConfig)
    (s : MarkState) (name : String) (now : ℚ) (date time_str : String)
    (idx : Nat)
    (hfind : s.ledger.findIdx? (recordPred name date) = some idx)
    (hempty : emptyPunchOut (s.ledger.getD idx default).punch_out = true) :
    mark_attendance cfg s name true now date time_str IOOutcome.writeFail
      = ("ERROR",
         ⟨s.ledger, eraseKV (name ++ "_" ++ date) s.last_marked⟩) := by
  rw [List.getD_eq_getElem?_getD] at hempty
  simp [mark_attendance, hfind, hempty, List.getD_eq_getElem?_getD]

/-! ### C1: the per-(name, date) state machine under a live subject -/

/-- C1: with `liveness_alive = true` and healthy I/O, `mark_attendance`
follows the NoRecord → PunchedIn → PunchedOut state machine: with no
row for (name, date) and a lapsed (or absent) debounce entry it appends
the row `(name, date, time_str, "", "HIGH", "VERIFIED")` and returns
`PUNCH_IN`; with a first matching row whose `Punch_Out` is empty it
fills `Punch_Out`, marks liveness verified, deletes the debounce entry
and returns `PUNCH_OUT`; with a row already punched out it changes
nothing and returns `ALREADY_MARKED`. -/
theorem mark_attendance_state_machine (cfg : RecognitionConfig)
    (s : MarkState) (name : String) (now : ℚ) (date time_str : String) :
    (s.ledger.findIdx? (recordPred name date) = none →
      (∀ last, lookupKV (name ++ "_" ++ date) s.last_marked = some last →
        ¬ now - last < (cfg.duplicate_detection_window : ℚ)) →
      mark_attendance cfg s name true now date time_str IOOutcome.ok
        = ("PUNCH_IN",
           ⟨s.ledger ++ [⟨name, date, time_str, "", "HIGH", "VERIFIED"⟩],
            insertKV (name ++ "_" ++ date) now s.last_marked⟩))
  ∧ (∀ idx, s.ledger.findIdx? (recordPred name date) = some idx →
      emptyPunchOut (s.ledger.getD idx default).punch_out = true →
      mark_attendance cfg s name true now date time_str IOOutcome.ok
        = ("PUNCH_OUT",
           ⟨s.ledger.set idx { s.ledger.getD idx default with
              punch_out := time_str, liveness_check := "VERIFIED" },
            eraseKV (name ++ "_" ++ date) s.last_marked⟩))
  ∧ (∀ idx, s.ledger.findIdx? (recordPred name date) = some idx →
      emptyPunchOut (s.ledger.getD idx default).punch_out = false →
      mark_attendance cfg s name true now date time_str IOOutcome.ok
        = ("ALREADY_MARKED", s)) :=
  ⟨fun hfind hdeb =>
    mark_attendance_punch_in_eq cfg s name now date time_str hfind hdeb,
   fun idx hfind hempty =>
    mark_attendance_punch_out_eq cfg s name now date time_str idx hfind hempty,
   fun idx hfind hfull =>
    mark_attendance_already_marked_eq cfg s name now date time_str idx hfind hfull⟩

/-- Witness for `mark_attendance_state_machine`: the three transitions
at concrete ledgers — a fresh one, one holding an open record for alice,
and one holding a closed record. -/
theorem mark_attendance_state_machine_witness :
    mark_attendance {} ⟨[], []⟩ "alice" true 0 "2026-10-12" "09:00:00" IOOutcome.ok
      = ("PUNCH_IN", ⟨[] ++ [recOpen],
          insertKV ("alice" ++ "_" ++ "2026-10-12") 0 []⟩)
  ∧ mark_attendance {} ⟨[recOpen], [("alice_2026-10-12", 0)]⟩
      "alice" true 100 "2026-10-12" "17:00:00" IOOutcome.ok
      = ("PUNCH_OUT",
         ⟨[recOpen].set 0 { [recOpen].getD 0 default with
              punch_out := "17:00:00", liveness_check := "VERIFIED" },
          eraseKV ("alice" ++ "_" ++ "2026-10-12") [("alice_2026-10-12", 0)]⟩)
  ∧ mark_attendance {} ⟨[recClosed], []⟩
      "alice" true 200 "2026-10-12" "18:00:00" IOOutcome.ok
      = ("ALREADY_MARKED", ⟨[recClosed], []⟩) :=
  ⟨(mark_attendance_state_machine {} ⟨[], []⟩ "alice" 0 "2026-10-12" "09:00:00").1
      (by decide) (fun last h => by simp [lookupKV] at h),
   (mark_attendance_state_machine {} ⟨[recOpen], [("alice_2026-10-12", 0)]⟩
      "alice" 100 "2026-10-12" "17:00:00").2.1 0
      (by with_unfolding_all decide) (by with_unfolding_all decide),
   (mark_attendance_state_machine {} ⟨[recClosed], []⟩
      "alice" 200 "2026-10-12" "18:00:00").2.2 0
      (by with_unfolding_all decide) (by with_unfolding_all decide)⟩

/-! ### C3: duplicate suppression and what an immediate second mark does -/

/-- C3 (amended): on a fresh day the first live mark returns `PUNCH_IN`;
`DUPLICATE` is returned exactly in the state where no record exists for
(name, date) and the debounce map still holds an entry younger than
`duplicate_detection_window` (reachable e.g. when the punch-in row was
not persisted); but after a successful punch-in the record exists, so an
immediate second live mark — at any time, inside the window or not —
takes the record-exists branch and returns `PUNCH_OUT`, not
`DUPLICATE`. -/
theorem mark_attendance_debounce_policy (cfg : RecognitionConfig)
    (s : MarkState) (name : String) (now : ℚ) (date time_str : String) :
    (s.ledger.findIdx? (recordPred name date) = none →
      lookupKV (name ++ "_" ++ date) s.last_marked = none →
      (mark_attendance cfg s name true now date time_str IOOutcome.ok).1
        = "PUNCH_IN")
  ∧ (s.ledger.findIdx? (recordPred name date) = none →
      ∀ last, lookupKV (name ++ "_" ++ date) s.last_marked = some last →
      now - last < (cfg.duplicate_detection_window : ℚ) →
      mark_attendance cfg s name true now date time_str IOOutcome.ok
        = ("DUPLICATE", s))
  ∧ (s.ledger.findIdx? (recordPred name date) = none →
      lookupKV (name ++ "_" ++ date) s.last_marked = none →
      ∀ now2 time2 : _,
      mark_attendance cfg
        (mark_attendance cfg s name true now date time_str IOOutcome.ok).2
        name true now2 date time2 IOOutcome.ok
        = ("PUNCH_OUT",
           ⟨(s.ledger ++ [AttendanceRecord.mk name date time_str "" "HIGH" "VERIFIED"]).set
              s.ledger.length
              (AttendanceRecord.mk name date time_str time2 "HIGH" "VERIFIED"),
            eraseKV (name ++ "_" ++ date)
              (insertKV (name ++ "_" ++ date) now s.last_marked)⟩)) := by
  refine ⟨?_, ?_, ?_⟩
  · intro hfind hlk
    rw [mark_attendance_punch_in_eq cfg s name now date time_str hfind
      (fun last h => by rw [hlk] at h; cases h)]
  · intro hfind last hl hlt
    exact mark_attendance_duplicate_eq cfg s name now date time_str last hfind hl hlt
  · intro hfind hlk now2 time2
    rw [mark_attendance_punch_in_eq cfg s name now date time_str hfind
      (fun last h => by rw [hlk] at h; cases h)]
    have hfind2 : (s.ledger
        ++ [AttendanceRecord.mk name date time_str "" "HIGH" "VERIFIED"]).findIdx?
        (recordPred name date) = some s.ledger.length := by
      rw [List.findIdx?_append, hfind]
      simp [List.findIdx?_cons, recordPred]
    have hget : (s.ledger
        ++ [AttendanceRecord.mk name date time_str "" "HIGH" "VERIFIED"]).getD
        s.ledger.length default
        = AttendanceRecord.mk name date time_str "" "HIGH" "VERIFIED" := by
      rw [List.getD_eq_getElem?_getD,
        List.getElem?_append_right (Nat.le_refl _)]
      simp
    have h2 := mark_attendance_punch_out_eq cfg
      ⟨s.ledger ++ [AttendanceRecord.mk name date time_str "" "HIGH" "VERIFIED"],
       insertKV (name ++ "_" ++ date) now s.last_marked⟩
      name now2 date time2 s.ledger.length hfind2 (by
        rw [hget]
        show emptyPunchOut "" = true
        with_unfolding_all decide)
    exact h2.trans (by rw [hget])

/-- Witness for `mark_attendance_debounce_policy` on concrete states:
the fresh punch-in, the duplicate-suppressed state (young debounce
entry, no record), and the immediate second mark after a punch-in. -/
theorem mark_attendance_debounce_policy_witness :
    (mark_attendance {} ⟨[], []⟩ "alice" true 0 "2026-10-12" "09:00:00"
        IOOutcome.ok).1 = "PUNCH_IN"
  ∧ mark_attendance {} ⟨[], [("alice_2026-10-12", 0)]⟩ "alice" true 1
      "2026-10-12" "09:00:01" IOOutcome.ok
      = ("DUPLICATE", ⟨[], [("alice_2026-10-12", 0)]⟩)
  ∧ mark_attendance {}
      (mark_attendance {} ⟨[], []⟩ "alice" true 0 "2026-10-12" "09:00:00"
        IOOutcome.ok).2 "alice" true 1 "2026-10-12" "09:00:01" IOOutcome.ok
      = ("PUNCH_OUT",
         ⟨([] ++ [recOpen]).set 0
            (AttendanceRecord.mk "alice" "2026-10-12" "09:00:00" "09:00:01" "HIGH" "VERIFIED"),
          eraseKV ("alice" ++ "_" ++ "2026-10-12")
            (insertKV ("alice" ++ "_" ++ "2026-10-12") 0 [])⟩) :=
  ⟨(mark_attendance_debounce_policy {} ⟨[], []⟩ "alice" 0 "2026-10-12"
      "09:00:00").1 (by decide) (by decide),
   (mark_attendance_debounce_policy {} ⟨[], [("alice_2026-10-12", 0)]⟩ "alice" 1
      "2026-10-12" "09:00:01").2.1 (by decide) 0
      (by with_unfolding_all decide) (by with_unfolding_all decide),
   (mark_attendance_debounce_policy {} ⟨[], []⟩ "alice" 0 "2026-10-12"
      "09:00:00").2.2 (by decide) (by decide) 1 "09:00:01"⟩

/-- Counterexample to C3 as stated: from the fresh state, an accepted
punch-in at `now = 0` followed 1 second later (inside the default 5 s
window) by a second live mark yields `PUNCH_OUT` — the record now
exists, so the debounce branch is never consulted and `DUPLICATE` is not
returned. -/
theorem mark_attendance_second_mark_not_duplicate :
    (mark_attendance {} ⟨[], []⟩ "alice" true 0 "2026-10-12" "09:00:00"
        IOOutcome.ok).1 = "PUNCH_IN"
  ∧ ((1 : ℚ) - 0 < 5)
  ∧ (mark_attendance {}
      (mark_attendance {} ⟨[], []⟩ "alice" true 0 "2026-10-12" "09:00:00"
        IOOutcome.ok).2 "alice" true 1 "2026-10-12" "09:00:01"
      IOOutcome.ok).1 = "PUNCH_OUT"
  ∧ (mark_attendance {}
      (mark_attendance {} ⟨[], []⟩ "alice" true 0 "2026-10-12" "09:00:00"
        IOOutcome.ok).2 "alice" true 1 "2026-10-12" "09:00:01"
      IOOutcome.ok).1 ≠ "DUPLICATE" := by
  with_unfolding_all decide

/-! ### C8: I/O failure during the read-modify-write -/

/-- C8 (amended): an I/O failure inside `mark_attendance` is reported as
`ERROR` and the ledger file is not updated (the write is all-or-nothing),
but the in-memory DebounceMap is not rolled back: a failure at the read
leaves everything unchanged, while a failure at the write happens after
the `last_marked` mutation — the punch-in path has already stored the
debounce entry and the punch-out path has already deleted it. -/
theorem mark_attendance_io_failure (cfg : RecognitionConfig) (s : MarkState)
    (name : String) (now : ℚ) (date time_str : String) :
    (mark_attendance cfg s name true now date time_str IOOutcome.readFail
      = ("ERROR", s))
  ∧ (s.ledger.findIdx? (recordPred name date) = none →
      (∀ last, lookupKV (name ++ "_" ++ date) s.last_marked = some last →
        ¬ now - last < (cfg.duplicate_detection_window : ℚ)) →
      mark_attendance cfg s name true now date time_str IOOutcome.writeFail
        = ("ERROR",
           ⟨s.ledger, insertKV (name ++ "_" ++ date) now s.last_marked⟩))
  ∧ (∀ idx, s.ledger.findIdx? (recordPred name date) = some idx →
      emptyPunchOut (s.ledger.getD idx default).punch_out = true →
      mark_attendance cfg s name true now date time_str IOOutcome.writeFail
        = ("ERROR",
           ⟨s.ledger, eraseKV (name ++ "_" ++ date) s.last_marked⟩)) :=
  ⟨mark_attendance_read_fail_eq cfg s name now date time_str,
   fun hfind hdeb =>
    mark_attendance_write_fail_in_eq cfg s name now date time_str hfind hdeb,
   fun idx hfind hempty =>
    mark_attendance_write_fail_out_eq cfg s name now date time_str idx
      hfind hempty⟩

/-- Witness for `mark_attendance_io_failure` at concrete states: a read
failure on the fresh state, a write failure on the punch-in path, and a
write failure on the punch-out path. -/
theorem mark_attendance_io_failure_witness :
    mark_attendance {} ⟨[], []⟩ "alice" true 0 "2026-10-12" "09:00:00"
      IOOutcome.readFail = ("ERROR", ⟨[], []⟩)
  ∧ mark_attendance {} ⟨[], []⟩ "alice" true 0 "2026-10-12" "09:00:00"
      IOOutcome.writeFail
      = ("ERROR", ⟨[], insertKV ("alice" ++ "_" ++ "2026-10-12") 0 []⟩)
  ∧ mark_attendance {} ⟨[recOpen], [("alice_2026-10-12", 0)]⟩ "alice" true 100
      "2026-10-12" "17:00:00" IOOutcome.writeFail
      = ("ERROR",
         ⟨[recOpen],
          eraseKV ("alice" ++ "_" ++ "2026-10-12") [("alice_2026-10-12", 0)]⟩) :=
  ⟨(mark_attendance_io_failure {} ⟨[], []⟩ "alice" 0 "2026-10-12" "09:00:00").1,
   (mark_attendance_io_failure {} ⟨[], []⟩ "alice" 0 "2026-10-12" "09:00:00").2.1
      (by decide) (fun last h => by simp [lookupKV] at h),
   (mark_attendance_io_failure {} ⟨[recOpen], [("alice_2026-10-12", 0)]⟩
      "alice" 100 "2026-10-12" "17:00:00").2.2 0
      (by with_unfolding_all decide) (by with_unfolding_all decide)⟩

/-- Counterexample to C8 as stated: a write failure on a fresh punch-in
returns `ERROR` and leaves the ledger file unchanged, but the in-memory
DebounceMap has gained the entry for the key — in-memory state is
changed, contradicting the claim. -/
theorem mark_attendance_write_failure_mutates_debounce :
    (mark_attendance {} ⟨[], []⟩ "alice" true 0 "2026-10-12" "09:00:00"
        IOOutcome.writeFail).1 = "ERROR"
  ∧ (mark_attendance {} ⟨[], []⟩ "alice" true 0 "2026-10-12" "09:00:00"
        IOOutcome.writeFail).2.ledger = []
  ∧ (mark_attendance {} ⟨[], []⟩ "alice" true 0 "2026-10-12" "09:00:00"
        IOOutcome.writeFail).2.last_marked ≠ [] := by
  with_unfolding_all decide

/-! ### C10: the persisted confidence is a constant literal -/

/-- C10: whatever the inputs (liveness flag, clock, I/O fate), whenever
`mark_attendance` returns `PUNCH_IN` the ledger grew by exactly the row
`(name, date, time_str, "", "HIGH", "VERIFIED")`: the `Confidence` cell
is the constant string `"HIGH"` and `Liveness_Check` is `"VERIFIED"`.
The matcher's numeric confidence `1 − distance` is not even an input of
`mark_attendance`, so it can never be persisted. -/
theorem mark_attendance_punch_in_constant_row (cfg : RecognitionConfig)
    (s : MarkState) (name : String) (alive : Bool) (now : ℚ)
    (date time_str : String) (io : IOOutcome) (st : String) (s2 : MarkState)
    (h : mark_attendance cfg s name alive now date time_str io = (st, s2))
    (hst : st = "PUNCH_IN") :
    s2.ledger = s.ledger
      ++ [⟨name, date, time_str, "", "HIGH", "VERIFIED"⟩] := by
  subst hst
  simp only [mark_attendance] at h
  split at h
  · rw [Prod.mk.injEq] at h
    exact absurd h.1 (by decide)
  · split at h
    · rw [Prod.mk.injEq] at h
      exact absurd h.1 (by decide)
    · split at h
      · split at h
        · rw [Prod.mk.injEq] at h
          exact absurd h.1 (by decide)
        · split at h
          · rw [Prod.mk.injEq] at h
            exact absurd h.1 (by decide)
          · rw [Prod.mk.injEq] at h
            rw [← h.2]
      · split at h
        · split at h
          · rw [Prod.mk.injEq] at h
            exact absurd h.1 (by decide)
          · rw [Prod.mk.injEq] at h
            exact absurd h.1 (by decide)
        · rw [Prod.mk.injEq] at h
          exact absurd h.1 (by decide)

/-- Witness for `mark_attendance_punch_in_constant_row` at a concrete
accepted punch-in. -/
theorem mark_attendance_punch_in_constant_row_witness :
    (mark_attendance {} ⟨[], []⟩ "alice" true 0 "2026-10-12" "09:00:00"
        IOOutcome.ok).2.ledger
      = [] ++ [⟨"alice", "2026-10-12", "09:00:00", "", "HIGH", "VERIFIED"⟩] :=
  mark_attendance_punch_in_constant_row {} ⟨[], []⟩ "alice" true 0 "2026-10-12"
    "09:00:00" IOOutcome.ok
    (mark_attendance {} ⟨[], []⟩ "alice" true 0 "2026-10-12" "09:00:00"
      IOOutcome.ok).1
    (mark_attendance {} ⟨[], []⟩ "alice" true 0 "2026-10-12" "09:00:00"
      IOOutcome.ok).2
    rfl (by with_unfolding_all decide)

/-! ### C4: the match postcondition of `recognize_face` -/

theorem idxminAux_spec (rest : List ℚ) : ∀ (i bi : Nat) (bv : ℚ),
    ((idxminAux i bi bv rest).2 ≤ bv
      ∧ ∀ x ∈ rest, (idxminAux i bi bv rest).2 ≤ x)
    ∧ ((idxminAux i bi bv rest).1 = bi ∧ (idxminAux i bi bv rest).2 = bv
       ∨ ∃ j, j < rest.length ∧ (idxminAux i bi bv rest).1 = i + j
           ∧ rest.getD j 0 = (idxminAux i bi bv rest).2
           ∧ (∀ k, k < j → (idxminAux i bi bv rest).2 < rest.getD k 0)
           ∧ (idxminAux i bi bv rest).2 < bv) := by
  induction rest with
  | nil =>
    intro i bi bv
    exact ⟨⟨le_refl _, by simp⟩, Or.inl ⟨rfl, rfl⟩⟩
  | cons d tl ih =>
    intro i bi bv
    by_cases hd : d < bv
    · have heq : idxminAux i bi bv (d :: tl) = idxminAux (i + 1) i d tl := by
        simp [idxminAux, hd]
      obtain ⟨⟨h1, h2⟩, h3⟩ := ih (i + 1) i d
      rw [heq]
      refine ⟨⟨le_trans h1 (le_of_lt hd), ?_⟩, ?_⟩
      · intro x hx
        rcases List.mem_cons.1 hx with rfl | hx
        · exact h1
        · exact h2 x hx
      · rcases h3 with ⟨hbi, hbv⟩ | ⟨j, hj, hidx, hget, hfore, hlt⟩
        · refine Or.inr ⟨0, by simp, by rw [Nat.add_zero]; exact hbi, ?_, ?_, ?_⟩
          · rw [List.getD_cons_zero, hbv]
          · intro k hk; omega
          · rw [hbv]; exact hd
        · refine Or.inr ⟨j + 1, by simp; omega, by omega, ?_, ?_, ?_⟩
          · rw [List.getD_cons_succ]; exact hget
          · intro k hk
            cases k with
            | zero => rw [List.getD_cons_zero]; exact hlt
            | succ k2 => rw [List.getD_cons_succ]; exact hfore k2 (by omega)
          · exact lt_trans hlt hd
    · have heq : idxminAux i bi bv (d :: tl) = idxminAux (i + 1) bi bv tl := by
        simp [idxminAux, hd]
      obtain ⟨⟨h1, h2⟩, h3⟩ := ih (i + 1) bi bv
      rw [heq]
      refine ⟨⟨h1, ?_⟩, ?_⟩
      · intro x hx
        rcases List.mem_cons.1 hx with rfl | hx
        · exact le_trans h1 (not_lt.1 hd)
        · exact h2 x hx
      · rcases h3 with hl | ⟨j, hj, hidx, hget, hfore, hlt⟩
        · exact Or.inl hl
        · refine Or.inr ⟨j + 1, by simp; omega, by omega, ?_, ?_, ?_⟩
          · rw [List.getD_cons_succ]; exact hget
          · intro k hk
            cases k with
            | zero =>
              rw [List.getD_cons_zero]
              exact lt_of_lt_of_le hlt (not_lt.1 hd)
            | succ k2 => rw [List.getD_cons_succ]; exact hfore k2 (by omega)
          · exact hlt

theorem idxmin_spec (d : ℚ) (rest : List ℚ) :
    (idxmin (d :: rest)).1 < (d :: rest).length
    ∧ (d :: rest).getD (idxmin (d :: rest)).1 0 = (idxmin (d :: rest)).2
    ∧ (∀ x ∈ d :: rest, (idxmin (d :: rest)).2 ≤ x)
    ∧ ∀ k, k < (idxmin (d :: rest)).1 →
        (idxmin (d :: rest)).2 < (d :: rest).getD k 0 := by
  have heq : idxmin (d :: rest) = idxminAux 1 0 d rest := rfl
  obtain ⟨⟨h1, h2⟩, h3⟩ := idxminAux_spec rest 1 0 d
  rw [heq]
  rcases h3 with ⟨hbi, hbv⟩ | ⟨j, hj, hidx, hget, hfore, hlt⟩
  · refine ⟨by rw [hbi]; simp, by rw [hbi, List.getD_cons_zero, hbv], ?_, ?_⟩
    · intro x hx
      rcases List.mem_cons.1 hx with rfl | hx
      · exact h1
      · exact h2 x hx
    · intro k hk
      rw [hbi] at hk
      omega
  · rw [Nat.add_comm] at hidx
    refine ⟨by rw [hidx]; simp; omega, ?_, ?_, ?_⟩
    · rw [hidx, List.getD_cons_succ]; exact hget
    · intro x hx
      rcases List.mem_cons.1 hx with rfl | hx
      · exact le_of_lt hlt
      · exact h2 x hx
    · intro k hk
      rw [hidx] at hk
      cases k with
      | zero => rw [List.getD_cons_zero]; exact hlt
      | succ k2 => rw [List.getD_cons_succ]; exact hfore k2 (by omega)

/-- C4: the match postcondition.  Zero detected faces gives name `none`
with distance 1 and confidence 0; more than one face gives the
`MULTIPLE_FACES` sentinel regardless of the embedding; one face whose
embedding extraction failed gives name `none`; one face with an
embedding but an empty enrolled set gives `UNKNOWN`; otherwise the
result's distance is the minimum of the distances to the enrolled
embeddings — attained at an index `i` before which every distance is
strictly larger, so ties resolve to the first enrollment index —
confidence is `1 − min_distance`, and the candidate `known_names[i]` is
returned iff `min_distance < recognition_threshold` and
`confidence > confidence_threshold`, else `UNKNOWN`. -/
theorem recognize_face_postcondition (cfg : RecognitionConfig) (faces : Nat)
    (alive : Bool) (enc : Option Emb) (kE : List Emb) (kN : List String)
    (fd : Emb → Emb → ℚ) :
    (faces = 0 →
      recognize_face cfg faces alive enc kE kN fd = ⟨none, 1, false, 0⟩)
  ∧ (1 < faces →
      recognize_face cfg faces alive enc kE kN fd
        = ⟨some "MULTIPLE_FACES", 1, false, 0⟩)
  ∧ (faces = 1 → enc = none →
      recognize_face cfg faces alive enc kE kN fd = ⟨none, 1, alive, 0⟩)
  ∧ (faces = 1 → ∀ e, enc = some e → kE = [] →
      recognize_face cfg faces alive enc kE kN fd
        = ⟨some "UNKNOWN", 1, alive, 0⟩)
  ∧ (faces = 1 → ∀ e, enc = some e → kE ≠ [] →
      ∃ i, i < kE.length
        ∧ (kE.map (fun k => fd k e)).getD i 0
            = (recognize_face cfg faces alive enc kE kN fd).distance
        ∧ (∀ x ∈ kE.map (fun k => fd k e),
            (recognize_face cfg faces alive enc kE kN fd).distance ≤ x)
        ∧ (∀ k2, k2 < i →
            (recognize_face cfg faces alive enc kE kN fd).distance
              < (kE.map (fun k => fd k e)).getD k2 0)
        ∧ (recognize_face cfg faces alive enc kE kN fd).confidence
            = 1 - (recognize_face cfg faces alive enc kE kN fd).distance
        ∧ (recognize_face cfg faces alive enc kE kN fd).name
            = some (if (recognize_face cfg faces alive enc kE kN fd).distance
                < cfg.recognition_threshold
                ∧ cfg.confidence_threshold
                    < (recognize_face cfg faces alive enc kE kN fd).confidence
              then kN.getD i "" else "UNKNOWN")) := by
  refine ⟨?_, ?_, ?_, ?_, ?_⟩
  · intro h; subst h; rfl
  · intro h
    have h0 : faces ≠ 0 := by omega
    simp [recognize_face, h0, h]
  · intro h he; subst h; subst he; rfl
  · intro h e he hke; subst h; subst he; subst hke; rfl
  · intro h e he hne
    subst h; subst he
    obtain ⟨k0, kr, rfl⟩ := List.exists_cons_of_ne_nil hne
    obtain ⟨hs1, hs2, hs3, hs4⟩ := idxmin_spec (fd k0 e) (kr.map (fun k => fd k e))
    refine ⟨(idxmin ((k0 :: kr).map (fun k => fd k e))).1, ?_, ?_, ?_, ?_, rfl, rfl⟩
    · simpa using hs1
    · exact hs2
    · exact hs3
    · exact hs4

/-- Witness for `recognize_face_postcondition` on concrete inputs: no
face, two faces, an embedding-extraction miss, an empty enrollment, and
a two-identity enrollment where the observed embedding matches the
second enrolled vector exactly. -/
theorem recognize_face_postcondition_witness :
    recognize_face {} 0 false none [] []
      (fun a b => if a = b then (0 : ℚ) else 1) = ⟨none, 1, false, 0⟩
  ∧ recognize_face {} 2 false (some [1]) [[1]] ["alice"]
      (fun a b => if a = b then (0 : ℚ) else 1)
      = ⟨some "MULTIPLE_FACES", 1, false, 0⟩
  ∧ recognize_face {} 1 true none [[1]] ["alice"]
      (fun a b => if a = b then (0 : ℚ) else 1) = ⟨none, 1, true, 0⟩
  ∧ recognize_face {} 1 true (some [1]) [] []
      (fun a b => if a = b then (0 : ℚ) else 1) = ⟨some "UNKNOWN", 1, true, 0⟩
  ∧ (∃ i, i < ([[2], [1]] : List Emb).length
      ∧ (([[2], [1]] : List Emb).map
            (fun k => (fun a b => if a = b then (0 : ℚ) else 1) k [1])).getD i 0
          = (recognize_face {} 1 true (some [1]) [[2], [1]] ["bob", "alice"]
              (fun a b => if a = b then (0 : ℚ) else 1)).distance
      ∧ (∀ x ∈ ([[2], [1]] : List Emb).map
            (fun k => (fun a b => if a = b then (0 : ℚ) else 1) k [1]),
          (recognize_face {} 1 true (some [1]) [[2], [1]] ["bob", "alice"]
              (fun a b => if a = b then (0 : ℚ) else 1)).distance ≤ x)
      ∧ (∀ k2, k2 < i →
          (recognize_face {} 1 true (some [1]) [[2], [1]] ["bob", "alice"]
              (fun a b => if a = b then (0 : ℚ) else 1)).distance
            < (([[2], [1]] : List Emb).map
                (fun k => (fun a b => if a = b then (0 : ℚ) else 1) k [1])).getD k2 0)
      ∧ (recognize_face {} 1 true (some [1]) [[2], [1]] ["bob", "alice"]
            (fun a b => if a = b then (0 : ℚ) else 1)).confidence
          = 1 - (recognize_face {} 1 true (some [1]) [[2], [1]] ["bob", "alice"]
              (fun a b => if a = b then (0 : ℚ) else 1)).distance
      ∧ (recognize_face {} 1 true (some [1]) [[2], [1]] ["bob", "alice"]
            (fun a b => if a = b then (0 : ℚ) else 1)).name
          = some (if (recognize_face {} 1 true (some [1]) [[2], [1]] ["bob", "alice"]
                (fun a b => if a = b then (0 : ℚ) else 1)).distance
              < ({} : RecognitionConfig).recognition_threshold
              ∧ ({} : RecognitionConfig).confidence_threshold
                  < (recognize_face {} 1 true (some [1]) [[2], [1]] ["bob", "alice"]
                      (fun a b => if a = b then (0 : ℚ) else 1)).confidence
            then (["bob", "alice"] : List String).getD i "" else "UNKNOWN")) :=
  ⟨(recognize_face_postcondition {} 0 false none [] []
      (fun a b => if a = b then (0 : ℚ) else 1)).1 rfl,
   (recognize_face_postcondition {} 2 false (some [1]) [[1]] ["alice"]
      (fun a b => if a = b then (0 : ℚ) else 1)).2.1 (by decide),
   (recognize_face_postcondition {} 1 true none [[1]] ["alice"]
      (fun a b => if a = b then (0 : ℚ) else 1)).2.2.1 rfl rfl,
   (recognize_face_postcondition {} 1 true (some [1]) [] []
      (fun a b => if a = b then (0 : ℚ) else 1)).2.2.2.1 rfl [1] rfl rfl,
   (recognize_face_postcondition {} 1 true (some [1]) [[2], [1]] ["bob", "alice"]
      (fun a b => if a = b then (0 : ℚ) else 1)).2.2.2.2 rfl [1] rfl (by decide)⟩
